import Mathlib

/-!
Verification of `fakerate_plotting/plotting/Dataset.py`.

A shallow embedding of the `Dataset` / `PhysicsProcess` query pipeline
(`_determineCut`, `_determineVariable`, `getHistogram`, `getYield`, `getValues`,
`getHistogram2D`, `copy`) together with value-level models of its collaborators
(`Cut`, `SystematicsSet`, `HistogramStore`, the scan engine), which live in
modules outside the source tree and are modelled from the specification.

Modelling conventions:
* Numeric values (bin contents, weights, scale factors) are rationals, acting
  as idealized reals for the Python floats.
* A histogram is its list of bin contents (index 0 = underflow, last index =
  overflow), a parallel list of *squared* bin errors (squares are kept because
  square roots leave the rationals; ROOT's `Scale`/`Add` act on errors exactly
  as on the squares shown here), and the raw entry count (`GetEntries`).
* Presentation state (titles, styles, draw options, colours) carries no data
  content and is omitted.
* The ROOT scan engine (`TTree::Draw` via `createHistogramFromTree`,
  `getValuesFromTree`, `create2DHistogramFromTree`, `Tools.forceBinning`) is an
  abstract environment `ScanEnv` of deterministic functions, per the external
  ScanEngine contract of the specification.
* Python exceptions are modelled by `PyResult.raised`.
-/

/-- Modelled from the spec: `Cut` (module `plotting.Cut`, not in the source
tree) is an immutable selection expression with AND-combination (empty operand
is identity), best-effort removal of a previously conjoined sub-expression
(silently a no-op when the sub-expression was never conjoined), and
multiplication by a weight expression.  The conjunction is represented by the
list of its conjuncts and the multiplied weight terms by a second list. -/
structure Cut where
  conjuncts : List String
  weights : List String
deriving DecidableEq, Repr

def Cut.empty : Cut := ⟨[], []⟩

/-- Modelled from the spec: AND-combination of two cuts (`Cut.__add__`). -/
def Cut.and (a b : Cut) : Cut := ⟨a.conjuncts ++ b.conjuncts, a.weights ++ b.weights⟩

/-- Modelled from the spec: `withoutCut` removes each conjunct of `sub` that
occurs in `a` (first occurrence), and silently leaves `a` unchanged where a
conjunct of `sub` was never conjoined. -/
def Cut.withoutCut (a sub : Cut) : Cut :=
  ⟨sub.conjuncts.foldl (fun l s => l.erase s) a.conjuncts, a.weights⟩

/-- Modelled from the spec: multiplying a cut by a weight expression
(`Cut.__mul__`), threading the per-row weight through the same scan call. -/
def Cut.timesWeight (a : Cut) (w : String) : Cut := ⟨a.conjuncts, a.weights ++ [w]⟩

/-- Modelled from the spec: a variable/binning descriptor (`plotting.Variable`,
not in the source tree): draw expression, number of bins, and the bin indices
blinded for real data (`Variable.blindRegion` / `applyBlinding`). -/
structure Variable where
  command : String
  nBins : Nat
  blindedBins : List Nat
deriving DecidableEq, Repr

/-- Modelled from the spec: the single-bin "integral" proxy variable
`var_Yield` used by `getYield`. -/
def var_Yield : Variable := ⟨"1", 1, []⟩

/-- A filled histogram: bin contents (underflow first, overflow last), squared
bin errors, and the raw entry count. -/
structure Histogram where
  bins : List ℚ
  err2 : List ℚ
  entries : ℚ
deriving DecidableEq, Repr

/-- `TH1::Scale c`: contents scale by `c`, squared errors by `c ^ 2`,
`GetEntries` is unchanged. -/
def Histogram.scale (h : Histogram) (c : ℚ) : Histogram :=
  ⟨h.bins.map (fun x => c * x), h.err2.map (fun x => c ^ 2 * x), h.entries⟩

/-- `TH1::Add`: bin-wise sum of contents and of squared errors; entry counts
add. -/
def Histogram.add (a b : Histogram) : Histogram :=
  ⟨List.zipWith (fun x y => x + y) a.bins b.bins,
   List.zipWith (fun x y => x + y) a.err2 b.err2,
   a.entries + b.entries⟩

/-- `Integral(0, GetNbinsX()+1)` / `IntegralAndError(0, GetNbinsX()+2, e)`:
the sum over all bins including underflow and overflow. -/
def Histogram.integralAll (h : Histogram) : ℚ := h.bins.sum

/-- The squared error accompanying `integralAll` (`IntegralAndError`). -/
def Histogram.errSqAll (h : Histogram) : ℚ := h.err2.sum

/-- `Integral()` without arguments: the sum over the regular bins only. -/
def Histogram.integralInner (h : Histogram) : ℚ := (h.bins.drop 1).dropLast.sum

/-- Fold the first list entry into the second (underflow into first real bin),
zeroing the first. -/
def foldUnder : List ℚ → List ℚ
  | u :: b :: rest => 0 :: (u + b) :: rest
  | l => l

/-- Modelled from the spec: `Tools.overflowIntoLastBins` (not in the source
tree) folds the underflow into the first real bin and the overflow into the
last real bin. -/
def overflowIntoLastBins (h : Histogram) : Histogram :=
  ⟨(foldUnder (foldUnder h.bins).reverse).reverse,
   (foldUnder (foldUnder h.err2).reverse).reverse,
   h.entries⟩

/-- Zero every list entry whose index is in `blind`. -/
def zeroBinsAux (blind : List Nat) : Nat → List ℚ → List ℚ
  | _, [] => []
  | i, x :: rest => (if blind.contains i then 0 else x) :: zeroBinsAux blind (i + 1) rest

/-- Modelled from the spec: `Variable.applyBlinding(cut, hist)` zeroes the
blinded bins of the histogram (only ever invoked for real data).  The
cut-dependence of the blind region is not modelled: the variable's blinded
bins apply unconditionally. -/
def Variable.applyBlinding (v : Variable) (_cut : Cut) (h : Histogram) : Histogram :=
  ⟨zeroBinsAux v.blindedBins 0 h.bins, zeroBinsAux v.blindedBins 0 h.err2, h.entries⟩

/-- Direction of a systematic variation. -/
inductive VariationDirection where
  | nominal
  | up
  | down
deriving DecidableEq, Repr

/-- Modelled from the spec: one systematic uncertainty source
(`plotting.Systematics`, not in the source tree), unique by name, carrying its
scalar up/down scale factors and its weight-expression term.  The optional
per-cut applicability condition of `totalWeight` is not modelled (members are
treated as always applicable). -/
structure Systematic where
  name : String
  upScale : ℚ
  downScale : ℚ
  weight : String
deriving DecidableEq, Repr

/-- Modelled from the spec: a `TreeSystematicVariation`: a named variation,
the tree (data source) it reads, the name of its owning systematic source
(`variation.systematics`; the nominal variation has none), its direction, and
whether it is a shape systematic (requiring a rescan of a different source). -/
structure SystematicVariation where
  name : String
  treeName : String
  systName : Option String
  direction : VariationDirection
  isShapeSystematics : Bool
deriving DecidableEq, Repr

/-- Modelled from the spec: a `SystematicsSet` is a collection of systematic
sources unique by name. -/
abbrev SystematicsSet := List Systematic

def SystematicsSet.containsName (ss : SystematicsSet) (n : String) : Bool :=
  ss.any (fun s => s.name == n)

/-- Modelled from the spec: set union, keeping the left operand's entries and
adding the right operand's entries of unseen name. -/
def SystematicsSet.union (a b : SystematicsSet) : SystematicsSet :=
  a ++ b.filter (fun s => !a.containsName s.name)

/-- The scalar scale factor a single systematic contributes for a variation:
its up/down factor when the variation belongs to it, otherwise 1 (and 1 for
the nominal direction). -/
def Systematic.factorFor (s : Systematic) (v : SystematicVariation) : ℚ :=
  if v.systName = some s.name then
    match v.direction with
    | VariationDirection.up => s.upScale
    | VariationDirection.down => s.downScale
    | VariationDirection.nominal => 1
  else 1

/-- Modelled from the spec: `SystematicsSet.totalScaleFactor(variation, cut)`,
the product of the members' scalar factors resolved for the variation. -/
def SystematicsSet.totalScaleFactor (ss : SystematicsSet) (v : SystematicVariation)
    (_cut : Option Cut) : ℚ :=
  ss.foldl (fun acc s => acc * s.factorFor v) 1

def weightOne : String := "1"

/-- `(a)*(b)`: multiplicative combination of two weight expressions. -/
def weightTimes (a b : String) : String := "(" ++ a ++ ")*(" ++ b ++ ")"

/-- Modelled from the spec: `SystematicsSet.totalWeight(variation, cut)`, the
multiplicative product of the members' weight-expression terms. -/
def SystematicsSet.totalWeight (ss : SystematicsSet) (_v : SystematicVariation)
    (_cut : Option Cut) : String :=
  ss.foldl (fun acc s => weightTimes acc s.weight) weightOne

/-- Modelled from the spec: the content fingerprint keying the
`HistogramStore`: sample name, storage-variation identity, variable/binning
descriptor, canonical cut. -/
structure StoreKey where
  dsName : String
  variationName : String
  xVar : Variable
  cutConjuncts : List String
  cutWeights : List String
deriving DecidableEq, Repr

/-- Modelled from the spec: the `HistogramStore` (content-addressable cache of
scan results, module `plotting.HistogramStore`, not in the source tree). -/
abbrev HistogramStore := List (StoreKey × Histogram)

def HistogramStore.get (s : HistogramStore) (k : StoreKey) : Option Histogram :=
  match s with
  | [] => none
  | (k', h) :: rest => if k' = k then some h else HistogramStore.get rest k

/-- `putHistogram`: store under the key, shadowing any previous entry. -/
def HistogramStore.put (s : HistogramStore) (k : StoreKey) (h : Histogram) : HistogramStore :=
  (k, h) :: s

/-- The external scan engine and histogram utilities, abstracted as
deterministic functions: `scan` is `Variable.createHistogramFromTree` (tree,
selection, weight expression, variable), `scanValues` is `getValuesFromTree`,
`scan2D` is `create2DHistogramFromTree`, `forceBinningFn` is
`Tools.forceBinning`. -/
structure ScanEnv where
  scan : String → Cut → String → Variable → Histogram
  scanValues : String → Cut → String → List ℚ × List ℚ
  scan2D : String → Cut → String → Variable → Variable → Histogram
  forceBinningFn : Histogram → Variable → Histogram

/-- Outcome of a Python call that may raise. -/
inductive PyResult (α : Type) where
  | ok : α → PyResult α
  | raised : String → PyResult α
deriving DecidableEq, Repr

def attributeErrorMsg : String := "AttributeError: NoneType object has no attribute"

/-- The value state of a `Dataset` (Dataset.py lines 207-252) restricted to
the fields the query pipeline reads.  `nominalTreeName` is
`nominalSystematics.treeName`; `hasSource` abstracts whether `_open` finds an
openable tree for the dataset's `fileNames` (`if not tree: return`). -/
structure Dataset where
  name : String
  nominalTreeName : String
  weightExpression : String
  sumOfWeights : ℚ
  scaleFactors : List (String × ℚ)
  isData : Bool
  ignoreCuts : List Cut
  addCuts : List Cut
  replaceVariables : List (Variable × Variable)
  preselection : Cut
  systematicsSet : SystematicsSet
  hasSource : Bool
deriving DecidableEq, Repr

/-- `combinedScaleFactors` (line 482-487): the product of all global scale
factors (the dict values). -/
def Dataset.combinedScaleFactors (ds : Dataset) : ℚ :=
  ds.scaleFactors.foldl (fun acc p => acc * p.2) 1

/-- `nominalSystematics` (line 246): the nominal variation reading the
dataset's nominal tree. -/
def Dataset.nominalSystematics (ds : Dataset) : SystematicVariation :=
  ⟨"nominal", ds.nominalTreeName, none, VariationDirection.nominal, true⟩

/-- `_determineCut` (lines 448-455), shared by `Dataset` and
`PhysicsProcess`: start from `Cut() + cut`, remove each ignored cut, then AND
each added cut.  A `None` cut argument is the empty cut. -/
def determineCutCore (ignoreCuts addCuts : List Cut) (cut : Option Cut) : Cut :=
  let c := Cut.empty.and (cut.getD Cut.empty)
  let c := ignoreCuts.foldl Cut.withoutCut c
  addCuts.foldl Cut.and c

def Dataset.determineCut (ds : Dataset) (cut : Option Cut) : Cut :=
  determineCutCore ds.ignoreCuts ds.addCuts cut

/-- `_determineVariable` (lines 442-446), shared by `Dataset` and
`PhysicsProcess`: per-sample variable replacement. -/
def determineVariableCore : List (Variable × Variable) → Variable → Variable
  | [], v => v
  | (a, b) :: rest, v => if a = v then b else determineVariableCore rest v

def Dataset.determineVariable (ds : Dataset) (v : Variable) : Variable :=
  determineVariableCore ds.replaceVariables v

/-- The total selection a query applies to the dataset's rows: the
preselection (enforced through a `TEntryList` on the tree, lines 419-440)
conjoined with the result of `_determineCut`. -/
def Dataset.effectiveSelection (ds : Dataset) (cut : Option Cut) : Cut :=
  ds.preselection.and (ds.determineCut cut)

/-- `systematicsSet = self.systematicsSet.union(systematicsSet) if
systematicsSet else self.systematicsSet` (line 846). -/
def Dataset.effectiveSSet (ds : Dataset) (extra : Option SystematicsSet) : SystematicsSet :=
  match extra with
  | some e => ds.systematicsSet.union e
  | none => ds.systematicsSet

/-- Lines 845-849: default the variation to nominal, then demote it to nominal
when it has no owning systematic or its owning systematic is not in the
effective systematics set. -/
def Dataset.resolvedVariation (ds : Dataset) (extra : Option SystematicsSet)
    (v0 : Option SystematicVariation) : SystematicVariation :=
  let v := v0.getD ds.nominalSystematics
  match v.systName with
  | none => ds.nominalSystematics
  | some n => if (ds.effectiveSSet extra).containsName n then v else ds.nominalSystematics

/-- Line 854: cache storage uses the variation itself for shape systematics
and the nominal variation otherwise. -/
def Dataset.storeVariation (ds : Dataset) (v : SystematicVariation) : SystematicVariation :=
  if v.isShapeSystematics then v else ds.nominalSystematics

/-- Line 838-840: the weight expression actually used: the override if given,
else the dataset default; for real data with `ignoreDataWeight` the dataset
default. -/
def Dataset.resolvedWeight (ds : Dataset) (w : Option String) (ignoreDataWeight : Bool) : String :=
  let w0 := w.getD ds.weightExpression
  if ignoreDataWeight && ds.isData then ds.weightExpression else w0

/-- The cache key `getHistogram` consults (line 856): dataset name, storage
variation of the resolved variation, resolved variable, determined cut. -/
def Dataset.queryKey (ds : Dataset) (xVar : Variable) (cut : Option Cut)
    (v0 : Option SystematicVariation) (extra : Option SystematicsSet) : StoreKey :=
  ⟨ds.name, (ds.storeVariation (ds.resolvedVariation extra v0)).name,
   ds.determineVariable xVar, (ds.determineCut cut).conjuncts, (ds.determineCut cut).weights⟩

/-- Lines 863-868: the raw scan-engine histogram on a cache miss: draw the
resolved variable from the resolved variation's tree under the effective
selection, weighting by the resolved weight expression times the systematics
weight term. -/
def Dataset.scanHist (env : ScanEnv) (ds : Dataset) (xVar : Variable) (cut : Option Cut)
    (weightExpression : Option String) (ignoreDataWeight : Bool)
    (v0 : Option SystematicVariation) (extra : Option SystematicsSet) : Histogram :=
  let sset := ds.effectiveSSet extra
  let v := ds.resolvedVariation extra v0
  env.scan v.treeName (ds.effectiveSelection cut)
    (weightTimes (ds.resolvedWeight weightExpression ignoreDataWeight)
      (sset.totalWeight v (some (ds.determineCut cut))))
    (ds.determineVariable xVar)

/-- Lines 877-893: the post-retrieval processing applied to the histogram on
both the cache-hit and the cache-miss path: optional fixed-binning coercion,
optional overflow folding, scaling by own scale factors times the systematics
scale factor times (luminosity unless real data), and blinding for real
data. -/
def Dataset.postProcess (ds : Dataset) (env : ScanEnv) (sset : SystematicsSet)
    (v : SystematicVariation) (cut : Option Cut) (xVar : Variable) (luminosity : ℚ)
    (includeOverflowBins forceBinning : Bool) (h : Histogram) : Histogram :=
  let xv := ds.determineVariable xVar
  let h := if forceBinning then env.forceBinningFn h xv else h
  let h := if includeOverflowBins then overflowIntoLastBins h else h
  let sF := ds.combinedScaleFactors * sset.totalScaleFactor v (some (ds.determineCut cut))
  let sF := if ds.isData then sF else sF * luminosity
  let h := h.scale sF
  if ds.isData then xv.applyBlinding (ds.determineCut cut) h else h

/-- Result of one `getHistogram` call: the returned histogram (`None`
modelled as `none`), the histogram store afterwards, and the number of scan
engine invocations the call performed. -/
structure QueryResult where
  hist : Option Histogram
  store : Option HistogramStore
  scans : Nat

/-- `Dataset.getHistogram` (lines 816-896).  Control flow of the source: on a
cache hit without `recreate`, post-process the cached histogram; otherwise
open the tree (`None` when the source is missing: early return), scan, divide
by the sum of weights (unless that is zero, the integral is zero, or the
dataset is real data), store the divided histogram, and post-process it. -/
def Dataset.getHistogram (env : ScanEnv) (ds : Dataset) (store : Option HistogramStore)
    (xVar : Variable) (cut : Option Cut) (weightExpression : Option String)
    (luminosity : ℚ) (recreate : Bool) (systematicVariation : Option SystematicVariation)
    (includeOverflowBins : Bool) (ignoreDataWeight : Bool)
    (systematicsSet : Option SystematicsSet) (forceBinning : Bool) : QueryResult :=
  let sset := ds.effectiveSSet systematicsSet
  let v := ds.resolvedVariation systematicsSet systematicVariation
  let key := ds.queryKey xVar cut systematicVariation systematicsSet
  let cached := store.bind (fun s => s.get key)
  if cached.isSome && !recreate then
    ⟨cached.map (ds.postProcess env sset v cut xVar luminosity includeOverflowBins forceBinning),
     store, 0⟩
  else if ds.hasSource then
    let h0 := Dataset.scanHist env ds xVar cut weightExpression ignoreDataWeight
      systematicVariation systematicsSet
    let h1 := if ds.sumOfWeights ≠ 0 ∧ h0.integralAll ≠ 0 ∧ ds.isData = false then
        h0.scale (1 / ds.sumOfWeights)
      else h0
    ⟨some (ds.postProcess env sset v cut xVar luminosity includeOverflowBins forceBinning h1),
     store.map (fun s => s.put key h1), 1⟩
  else ⟨none, store, 0⟩

/-- `Dataset.getYield` (lines 781-790): delegate to `getHistogram` on the
single-bin proxy variable, then read `GetEntries` (with `ignoreWeights`) or
`IntegralAndError` over all bins.  When `getHistogram` returned `None`, the
attribute access on `None` raises.  The second component of the returned pair
is the squared statistical error. -/
def Dataset.getYield (env : ScanEnv) (ds : Dataset) (store : Option HistogramStore)
    (cut : Option Cut) (weightExpression : Option String) (luminosity : ℚ)
    (ignoreWeights : Bool) (systematicVariation : Option SystematicVariation)
    (ignoreDataWeight : Bool) (_ignoreSF : Bool) (systematicsSet : Option SystematicsSet)
    (recreate : Bool) : PyResult (ℚ × ℚ) × Option HistogramStore × Nat :=
  let r := ds.getHistogram env store var_Yield cut weightExpression luminosity recreate
    systematicVariation false ignoreDataWeight systematicsSet false
  match r.hist with
  | none => (PyResult.raised attributeErrorMsg, r.store, r.scans)
  | some h =>
    if ignoreWeights then (PyResult.ok (h.entries, h.entries), r.store, r.scans)
    else (PyResult.ok (h.integralAll, h.errSqAll), r.store, r.scans)

/-- `Dataset.getValues` (lines 792-814): fold the weight expression and the
systematics weight term into the cut, scan for the per-row values and weights,
and scale the weights by the combined scale factors times the systematics
scale factor times (luminosity unless real data).  Note: unlike
`getHistogram`, no demotion of the variation to nominal takes place. -/
def Dataset.getValues (env : ScanEnv) (ds : Dataset) (xVar : Variable) (cut : Option Cut)
    (weightExpression : Option String) (luminosity : ℚ)
    (systematicVariation : Option SystematicVariation)
    (systematicsSet : Option SystematicsSet) : Option (List ℚ × List ℚ) :=
  let w := weightExpression.getD ds.weightExpression
  let v := systematicVariation.getD ds.nominalSystematics
  let sset := ds.effectiveSSet systematicsSet
  let c := ((ds.determineCut cut).timesWeight w).timesWeight (sset.totalWeight v none)
  let xv := ds.determineVariable xVar
  if ds.hasSource then
    let vw := env.scanValues v.treeName (ds.preselection.and c) xv.command
    let sF := ds.combinedScaleFactors * sset.totalScaleFactor v (some c)
    let sF := if ds.isData then sF else sF * luminosity
    some (vw.1, vw.2.map (fun x => sF * x))
  else none

/-- Lines 926-928: the demotion performed by `getHistogram2D`, which (unlike
`getHistogram`) checks membership against the dataset's *own* systematics set
rather than the union with the extra set. -/
def Dataset.resolvedVariationOwn (ds : Dataset) (v0 : Option SystematicVariation) :
    SystematicVariation :=
  let v := v0.getD ds.nominalSystematics
  match v.systName with
  | none => ds.nominalSystematics
  | some n => if ds.systematicsSet.containsName n then v else ds.nominalSystematics

/-- `Dataset.getHistogram2D` (lines 898-951): like the miss path of
`getHistogram` but with no store interaction, demotion checked against the
dataset's *own* systematics set (line 927), `yVar` not passed through
`_determineVariable`, and the division guard using `Integral()` over the
regular bins. -/
def Dataset.getHistogram2D (env : ScanEnv) (ds : Dataset) (xVar yVar : Variable)
    (cut : Option Cut) (weightExpression : Option String) (luminosity : ℚ)
    (systematicVariation : Option SystematicVariation)
    (systematicsSet : Option SystematicsSet) : Option Histogram :=
  let w := weightExpression.getD ds.weightExpression
  let cutR := ds.determineCut cut
  let xv := ds.determineVariable xVar
  let sset := ds.effectiveSSet systematicsSet
  let v := ds.resolvedVariationOwn systematicVariation
  let wq := weightTimes w (sset.totalWeight v (some cutR))
  if ds.hasSource then
    let h0 := env.scan2D v.treeName (ds.preselection.and cutR) wq xv yVar
    let h1 := if ds.sumOfWeights ≠ 0 ∧ h0.integralInner ≠ 0 ∧ ds.isData = false then
        h0.scale (1 / ds.sumOfWeights)
      else h0
    let sF := ds.combinedScaleFactors * sset.totalScaleFactor v (some cutR)
    let sF := if ds.isData then sF else sF * luminosity
    some (h1.scale sF)
  else none

/-- The value state of a `PhysicsProcess` (lines 1053-1070): its own override
cuts, variable replacements, scale factors and systematics, plus the list of
contained datasets.  Nesting of processes is modelled one level deep (the
children are leaf datasets); the merge logic under verification is at this
level. -/
structure PhysicsProcess where
  name : String
  scaleFactors : List (String × ℚ)
  ignoreCuts : List Cut
  addCuts : List Cut
  replaceVariables : List (Variable × Variable)
  systematicsSet : SystematicsSet
  datasets : List Dataset
deriving DecidableEq, Repr

def PhysicsProcess.combinedScaleFactors (p : PhysicsProcess) : ℚ :=
  p.scaleFactors.foldl (fun acc q => acc * q.2) 1

def PhysicsProcess.effectiveSSet (p : PhysicsProcess) (extra : Option SystematicsSet) :
    SystematicsSet :=
  match extra with
  | some e => p.systematicsSet.union e
  | none => p.systematicsSet

/-- One iteration of the merge loop of `PhysicsProcess.getHistogram` (lines
1382-1391): query the child with the resolved context and the threaded store,
skip it when it returns `None` (a reported anomaly, not fatal), otherwise
start or extend the running `TH1::Add` merge. -/
def procStep (env : ScanEnv) (xv : Variable) (cutR : Cut)
    (weightExpression : Option String) (luminosity : ℚ) (recreate : Bool)
    (systematicVariation : Option SystematicVariation) (includeOverflowBins : Bool)
    (ignoreDataWeight : Bool) (sset : SystematicsSet) (forceBinning : Bool)
    (acc : Option Histogram × Option HistogramStore × Nat) (ds : Dataset) :
    Option Histogram × Option HistogramStore × Nat :=
  let r := ds.getHistogram env acc.2.1 xv (some cutR) weightExpression luminosity
    recreate systematicVariation includeOverflowBins ignoreDataWeight (some sset)
    forceBinning
  match r.hist, acc.1 with
  | none, a => (a, r.store, acc.2.2 + r.scans)
  | some h, none => (some h, r.store, acc.2.2 + r.scans)
  | some h, some hsum => (some (hsum.add h), r.store, acc.2.2 + r.scans)

/-- `PhysicsProcess.getHistogram` (lines 1360-1397): resolve the process's own
cut, variable and systematics once, query every child with the resolved
context and the shared store threaded through, merge the returned histograms
by `TH1::Add` while skipping children that return `None`, and finally scale
the merged histogram once by the process's own combined scale factors. -/
def PhysicsProcess.getHistogram (env : ScanEnv) (p : PhysicsProcess)
    (store : Option HistogramStore) (xVar : Variable) (cut : Option Cut)
    (weightExpression : Option String) (luminosity : ℚ) (recreate : Bool)
    (systematicVariation : Option SystematicVariation) (includeOverflowBins : Bool)
    (ignoreDataWeight : Bool) (systematicsSet : Option SystematicsSet)
    (forceBinning : Bool) : QueryResult :=
  let sset := p.effectiveSSet systematicsSet
  let cutR := determineCutCore p.ignoreCuts p.addCuts cut
  let xv := determineVariableCore p.replaceVariables xVar
  let r := p.datasets.foldl
    (procStep env xv cutR weightExpression luminosity recreate systematicVariation
      includeOverflowBins ignoreDataWeight sset forceBinning)
    ((none : Option Histogram), store, (0 : Nat))
  ⟨r.1.map (fun h => h.scale p.combinedScaleFactors), r.2.1, r.2.2⟩

/-- The list of histograms the children of a process return (children that
return `None` omitted), with the shared store threaded through the children in
order, and the total number of scan invocations. -/
def childHistograms (env : ScanEnv) (datasets : List Dataset)
    (store : Option HistogramStore) (xv : Variable) (cutR : Cut)
    (weightExpression : Option String) (luminosity : ℚ) (recreate : Bool)
    (systematicVariation : Option SystematicVariation) (includeOverflowBins : Bool)
    (ignoreDataWeight : Bool) (sset : SystematicsSet) (forceBinning : Bool) :
    List Histogram × Option HistogramStore × Nat :=
  match datasets with
  | [] => ([], store, 0)
  | ds :: rest =>
    let r := ds.getHistogram env store xv (some cutR) weightExpression luminosity recreate
      systematicVariation includeOverflowBins ignoreDataWeight (some sset) forceBinning
    let rec_ := childHistograms env rest r.store xv cutR weightExpression luminosity recreate
      systematicVariation includeOverflowBins ignoreDataWeight sset forceBinning
    (match r.hist with
     | some h => h :: rec_.1
     | none => rec_.1, rec_.2.1, r.scans + rec_.2.2)

/-- Bin-wise sum of a list of histograms (`none` for the empty list). -/
def sumHistograms : List Histogram → Option Histogram
  | [] => none
  | h :: t => some (t.foldl Histogram.add h)

/-- A container payload in the Python heap model: the entries of a dict or
the elements of a list, keyed generically by strings. -/
abbrev Obj := List (String × ℚ)

/-- A heap of reference cells, modelling Python object identity for the
mutable containers a `Dataset` owns: `next` is the next fresh address, `mem`
the written cells (unwritten cells read as empty). -/
structure PyHeap where
  next : Nat
  mem : List (Nat × Obj)
deriving DecidableEq, Repr

def PyHeap.read (h : PyHeap) (a : Nat) : Obj :=
  match h.mem.find? (fun q => q.1 == a) with
  | some q => q.2
  | none => []

def PyHeap.write (h : PyHeap) (a : Nat) (v : Obj) : PyHeap :=
  ⟨h.next, (a, v) :: h.mem⟩

/-- Allocate a fresh cell holding `v`; returns its address. -/
def PyHeap.alloc (h : PyHeap) (v : Obj) : Nat × PyHeap :=
  (h.next, ⟨h.next + 1, (h.next, v) :: h.mem⟩)

/-- The reference state of a `Dataset` object (constructor lines 220-252):
each mutable container attribute as an address into the heap.  Scalar
attributes are omitted — `copy()` rebinds them per object so they can never
alias. -/
structure DatasetObj where
  name : String
  title : String
  openTrees : Nat
  treeEntryLists : Nat
  scaleFactors : Nat
  scaleFactorsUncertainty : Nat
  fileNames : Nat
  friendTrees : Nat
  ignoreCuts : Nat
  addCuts : Nat
  replaceVariables : Nat
  systematicsSet : Nat
deriving DecidableEq, Repr

/-- `Dataset.copy` (lines 254-270): `copy(self)` is a shallow copy, so every
reference field is initially shared; then `openTrees`, `friendTrees`,
`scaleFactors`, `fileNames`, `ignoreCuts`, `addCuts` and `systematicsSet` are
explicitly rebound to fresh copies of their contents, in source order.  The
remaining containers (`treeEntryLists`, `scaleFactorsUncertainty`,
`replaceVariables`) keep the shared references.  The global name registry
(`DATASETS`, touched through the `name` setter) is not part of the per-object
state modelled here. -/
def DatasetObj.copy (ds : DatasetObj) (heap : PyHeap) (name title : String) :
    DatasetObj × PyHeap :=
  let a1 := heap.alloc (heap.read ds.openTrees)
  let a2 := a1.2.alloc (a1.2.read ds.friendTrees)
  let a3 := a2.2.alloc (a2.2.read ds.scaleFactors)
  let a4 := a3.2.alloc (a3.2.read ds.fileNames)
  let a5 := a4.2.alloc (a4.2.read ds.ignoreCuts)
  let a6 := a5.2.alloc (a5.2.read ds.addCuts)
  let a7 := a6.2.alloc (a6.2.read ds.systematicsSet)
  ({ ds with
      name := name
      title := title
      openTrees := a1.1
      friendTrees := a2.1
      scaleFactors := a3.1
      fileNames := a4.1
      ignoreCuts := a5.1
      addCuts := a6.1
      systematicsSet := a7.1 }, a7.2)

/-- The claim of C1, written from the spec's words rather than from the
source, for comparison with `Dataset.effectiveSelection`: combine the
preselection, the user cut and the injected cuts, and only then remove the
excluded cuts. -/
def claimEffectiveSelection (ds : Dataset) (cut : Option Cut) : Cut :=
  let c := ds.preselection.and (cut.getD Cut.empty)
  let c := ds.addCuts.foldl Cut.and c
  ds.ignoreCuts.foldl Cut.withoutCut c

/-- Merge a list of histograms into an optional running merge (the shape of
the process merge-loop accumulator). -/
def mergeInto : Option Histogram → List Histogram → Option Histogram
  | none, hs => sumHistograms hs
  | some h, hs => some (hs.foldl Histogram.add h)

/-! ## Concrete instances used by counterexamples and witnesses -/

def emptyHist : Histogram := ⟨[], [], 0⟩

def fbId : Histogram → Variable → Histogram := fun h _ => h

def scanValuesZero : String → Cut → String → List ℚ × List ℚ := fun _ _ _ => ([], [])

def scan2DZero : String → Cut → String → Variable → Variable → Histogram :=
  fun _ _ _ _ _ => emptyHist

def scanZero : String → Cut → String → Variable → Histogram := fun _ _ _ _ => emptyHist

def sysSrcName : String := "sys"

def systUpTreeName : String := "SYST_UP"

/-- A shape variation of direction up belonging to the systematic source
`sysSrcName`, reading the tree `SYST_UP`. -/
def vUp : SystematicVariation := ⟨"sysUp", systUpTreeName, some sysSrcName,
  VariationDirection.up, true⟩

def cutA : Cut := ⟨["a"], []⟩

def cutB : Cut := ⟨["b"], []⟩

def varM : Variable := ⟨"mass", 1, []⟩

/-- C1: a dataset whose excluded cut is exactly one of its injected cuts. -/
def dsC1 : Dataset :=
  { name := "d1", nominalTreeName := "NOMINAL", weightExpression := "weight",
    sumOfWeights := 1, scaleFactors := [], isData := false,
    ignoreCuts := [cutB], addCuts := [cutB], replaceVariables := [],
    preselection := Cut.empty, systematicsSet := [], hasSource := true }

def hScanC2 : Histogram := ⟨[0, 6, 0], [0, 6, 0], 3⟩

def envC2 : ScanEnv :=
  { scan := fun _ _ _ _ => hScanC2, scanValues := scanValuesZero,
    scan2D := scan2DZero, forceBinningFn := fbId }

/-- C2: a simulated dataset with sum of weights 2. -/
def dsC2 : Dataset :=
  { name := "bkg2", nominalTreeName := "NOMINAL", weightExpression := "weight",
    sumOfWeights := 2, scaleFactors := [("crossSection", 5), ("kFactor", 1)],
    isData := false, ignoreCuts := [], addCuts := [], replaceVariables := [],
    preselection := Cut.empty, systematicsSet := [], hasSource := true }

def hC3 : Histogram := ⟨[0, 4, 0], [0, 4, 0], 2⟩

def envC3 : ScanEnv :=
  { scan := fun _ _ _ _ => hC3, scanValues := scanValuesZero,
    scan2D := scan2DZero, forceBinningFn := fbId }

def dsC3 : Dataset :=
  { name := "bkg3", nominalTreeName := "NOMINAL", weightExpression := "weight",
    sumOfWeights := 2, scaleFactors := [("crossSection", 3)], isData := false,
    ignoreCuts := [], addCuts := [], replaceVariables := [],
    preselection := Cut.empty, systematicsSet := [], hasSource := true }

/-- C3: a store holding a pre-normalization histogram under the query key. -/
def storeC3 : HistogramStore := [(dsC3.queryKey varM none none none, hC3)]

def envC4 : ScanEnv :=
  { scan := scanZero,
    scanValues := fun tn _ _ => if tn = systUpTreeName then ([1], [1]) else ([2], [1]),
    scan2D := scan2DZero, forceBinningFn := fbId }

/-- C4: a dataset with an empty systematics set, so `vUp`'s source is never a
member. -/
def dsC4 : Dataset :=
  { name := "d4", nominalTreeName := "NOMINAL", weightExpression := "weight",
    sumOfWeights := 1, scaleFactors := [], isData := false,
    ignoreCuts := [], addCuts := [], replaceVariables := [],
    preselection := Cut.empty, systematicsSet := [], hasSource := true }

def hScanC5 : Histogram := ⟨[0, 8, 0], [0, 2, 0], 4⟩

def envC5 : ScanEnv :=
  { scan := fun _ _ _ _ => hScanC5, scanValues := scanValuesZero,
    scan2D := scan2DZero, forceBinningFn := fbId }

/-- C5 witness: a simulated dataset with nontrivial normalization. -/
def dsC5 : Dataset :=
  { name := "bkg5", nominalTreeName := "NOMINAL", weightExpression := "weight",
    sumOfWeights := 2, scaleFactors := [("crossSection", 5)], isData := false,
    ignoreCuts := [], addCuts := [], replaceVariables := [],
    preselection := Cut.empty, systematicsSet := [], hasSource := true }

def hScanC5c : Histogram := ⟨[0, 6, 0], [0, 4, 0], 3⟩

def envC5c : ScanEnv :=
  { scan := fun _ _ _ _ => hScanC5c, scanValues := scanValuesZero,
    scan2D := scan2DZero, forceBinningFn := fbId }

/-- C5 counterexample: trivial normalization (so only the `ignoreWeights`
extraction differs from the integral). -/
def dsC5c : Dataset :=
  { name := "bkg5c", nominalTreeName := "NOMINAL", weightExpression := "weight",
    sumOfWeights := 1, scaleFactors := [], isData := false,
    ignoreCuts := [], addCuts := [], replaceVariables := [],
    preselection := Cut.empty, systematicsSet := [], hasSource := true }

def hScanC7 : Histogram := ⟨[0, 5, 0], [0, 5, 0], 5⟩

def envC7 : ScanEnv :=
  { scan := fun _ _ _ _ => hScanC7, scanValues := scanValuesZero,
    scan2D := scan2DZero, forceBinningFn := fbId }

/-- C7 counterexample: a real-data dataset carrying a scale factor of 2. -/
def dsC7 : Dataset :=
  { name := "data7", nominalTreeName := "data", weightExpression := "weight",
    sumOfWeights := 7, scaleFactors := [("dataSF", 2)], isData := true,
    ignoreCuts := [], addCuts := [], replaceVariables := [],
    preselection := Cut.empty, systematicsSet := [], hasSource := true }

/-- C7 witness: a plain real-data dataset. -/
def dsC7w : Dataset :=
  { name := "data7w", nominalTreeName := "data", weightExpression := "weight",
    sumOfWeights := 7, scaleFactors := [], isData := true,
    ignoreCuts := [], addCuts := [], replaceVariables := [],
    preselection := Cut.empty, systematicsSet := [], hasSource := true }

def envC9 : ScanEnv :=
  { scan := scanZero, scanValues := scanValuesZero, scan2D := scan2DZero,
    forceBinningFn := fbId }

/-- C9: a dataset whose backing source cannot be opened. -/
def dsC9 : Dataset :=
  { name := "d9", nominalTreeName := "NOMINAL", weightExpression := "weight",
    sumOfWeights := 3, scaleFactors := [], isData := false,
    ignoreCuts := [], addCuts := [], replaceVariables := [],
    preselection := Cut.empty, systematicsSet := [], hasSource := false }

def nameCopy : String := "copy"

def titleCopy : String := "copy title"

def keyX : String := "x"

/-- C10: an original dataset object whose ten container references occupy
heap addresses 0-9. -/
def dsObjC10 : DatasetObj :=
  { name := "orig", title := "orig title", openTrees := 0, treeEntryLists := 1,
    scaleFactors := 2, scaleFactorsUncertainty := 3, fileNames := 4, friendTrees := 5,
    ignoreCuts := 6, addCuts := 7, replaceVariables := 8, systematicsSet := 9 }

def heapC10 : PyHeap := ⟨10, []⟩

def dsObjC10w : DatasetObj :=
  { name := "orig2", title := "orig2 title", openTrees := 0, treeEntryLists := 1,
    scaleFactors := 2, scaleFactorsUncertainty := 3, fileNames := 4, friendTrees := 5,
    ignoreCuts := 6, addCuts := 7, replaceVariables := 8, systematicsSet := 9 }

/-! ## Helper lemmas -/

theorem HistogramStore.get_put (s : HistogramStore) (k : StoreKey) (h : Histogram) :
    (s.put k h).get k = some h := by
  simp [HistogramStore.put, HistogramStore.get]

theorem sum_map_mul (c : ℚ) (l : List ℚ) : (l.map (fun x => c * x)).sum = c * l.sum := by
  induction l with
  | nil => simp
  | cons a t ih => simp [ih, mul_add]

theorem Histogram.integralAll_scale (h : Histogram) (c : ℚ) :
    (h.scale c).integralAll = c * h.integralAll := by
  simp [Histogram.scale, Histogram.integralAll, sum_map_mul]

theorem zeroBinsAux_nil (i : Nat) (l : List ℚ) : zeroBinsAux [] i l = l := by
  induction l generalizing i with
  | nil => rfl
  | cons a t ih => simp [zeroBinsAux, ih]

theorem Variable.applyBlinding_nil (v : Variable) (hb : v.blindedBins = []) (c : Cut)
    (h : Histogram) : v.applyBlinding c h = h := by
  cases h
  simp [Variable.applyBlinding, hb, zeroBinsAux_nil]

theorem Dataset.resolvedVariation_none (ds : Dataset) (extra : Option SystematicsSet) :
    ds.resolvedVariation extra none = ds.nominalSystematics := rfl

theorem Dataset.resolvedVariation_not_member (ds : Dataset) (extra : Option SystematicsSet)
    (v : SystematicVariation)
    (hm : ∀ n, v.systName = some n → (ds.effectiveSSet extra).containsName n = false) :
    ds.resolvedVariation extra (some v) = ds.nominalSystematics := by
  unfold Dataset.resolvedVariation
  cases hv : v.systName with
  | none => simp [hv]
  | some n => simp [hv, hm n hv]

theorem SystematicsSet.containsName_union_false (a b : SystematicsSet) (n : String)
    (h : (a.union b).containsName n = false) : a.containsName n = false := by
  simp only [SystematicsSet.union, SystematicsSet.containsName, List.any_append,
    Bool.or_eq_false_iff] at h
  exact h.1

theorem Dataset.containsName_own_false (ds : Dataset) (extra : Option SystematicsSet)
    (n : String) (h : (ds.effectiveSSet extra).containsName n = false) :
    ds.systematicsSet.containsName n = false := by
  cases extra with
  | none => exact h
  | some e => exact SystematicsSet.containsName_union_false ds.systematicsSet e n h

theorem Dataset.resolvedVariationOwn_none (ds : Dataset) :
    ds.resolvedVariationOwn none = ds.nominalSystematics := rfl

theorem Dataset.resolvedVariationOwn_not_member (ds : Dataset) (v : SystematicVariation)
    (hm : ∀ n, v.systName = some n → ds.systematicsSet.containsName n = false) :
    ds.resolvedVariationOwn (some v) = ds.nominalSystematics := by
  unfold Dataset.resolvedVariationOwn
  cases hv : v.systName with
  | none => simp [hv]
  | some n => simp [hv, hm n hv]

theorem cutFoldlAndConjuncts (l : List Cut) (c : Cut) :
    (l.foldl Cut.and c).conjuncts = c.conjuncts ++ (l.map Cut.conjuncts).flatten := by
  induction l generalizing c with
  | nil => simp
  | cons a t ih => simp [List.foldl_cons, ih, Cut.and, List.append_assoc]

theorem cutFoldlWithoutConjuncts (l : List Cut) (c : Cut) :
    (l.foldl Cut.withoutCut c).conjuncts =
      l.foldl (fun x ig => ig.conjuncts.foldl (fun y s => y.erase s) x) c.conjuncts := by
  induction l generalizing c with
  | nil => rfl
  | cons a t ih => simp [List.foldl_cons, ih, Cut.withoutCut]

/-! ## C1 -/

/-- C1, counterexample: for the dataset `dsC1`, whose excluded cut `b` is also
an injected cut, the selection the query actually uses
(`Dataset.effectiveSelection`, built by `_determineCut`) differs from the
claimed combine-everything-then-exclude selection: the code removes excluded
cuts *before* ANDing the injected cuts, so the injected `b` survives. -/
theorem c1_counterexample :
    dsC1.effectiveSelection (some cutA) ≠ claimEffectiveSelection dsC1 (some cutA) := by
  decide

/-- C1, amended: the effective selection of a query is the preselection ANDed
with: the user cut with the excluded conjuncts erased, followed by the
injected cuts' conjuncts.  Exclusion therefore acts after combination with the
user cut but *before* the injected cuts are ANDed, and never touches the
preselection or the injected cuts. -/
theorem c1_amended_order (ds : Dataset) (cut : Cut) :
    (ds.effectiveSelection (some cut)).conjuncts =
      ds.preselection.conjuncts
        ++ ds.ignoreCuts.foldl (fun x ig => ig.conjuncts.foldl (fun y s => y.erase s) x)
          cut.conjuncts
        ++ (ds.addCuts.map Cut.conjuncts).flatten := by
  show (ds.preselection.and (determineCutCore ds.ignoreCuts ds.addCuts (some cut))).conjuncts = _
  unfold determineCutCore
  simp [Cut.and, cutFoldlAndConjuncts, cutFoldlWithoutConjuncts, Cut.empty,
    List.append_assoc]

/-! ## C2 -/

/-- C2, counterexample: a `getHistogram` miss on `dsC2` (sum of weights 2)
stores a histogram whose bins are `[0, 3, 0]`, while the raw scan returned
`[0, 6, 0]`: the cached value has already been divided by the sum of
weights. -/
theorem c2_counterexample :
    (((Dataset.getHistogram envC2 dsC2 (some []) varM none none 1 false none false false
        none false).store.bind
      (fun s => s.get (dsC2.queryKey varM none none none))).map Histogram.bins
        = some [0, 3, 0])
    ∧ (Dataset.scanHist envC2 dsC2 varM none none false none none).bins = [0, 6, 0] := by
  norm_num [Dataset.getHistogram, Dataset.scanHist, HistogramStore.get, HistogramStore.put,
    Histogram.integralAll, Histogram.scale, envC2, dsC2, hScanC2]

/-- C2, amended: the histogram stored into the cache on a miss (with
`recreate` forcing the miss path) is the raw scan result already divided by
the sum of weights (for a simulated sample with nonzero sum of weights and
nonzero scan integral), and carries no scale factors, luminosity, overflow
folding, or binning coercion — those are applied after retrieval. -/
theorem c2_amended (env : ScanEnv) (ds : Dataset) (s : HistogramStore) (xVar : Variable)
    (cut : Option Cut) (w : Option String) (lumi : ℚ) (v : Option SystematicVariation)
    (iob idw : Bool) (extra : Option SystematicsSet) (fb : Bool)
    (hdata : ds.isData = false) (hsumw : ds.sumOfWeights ≠ 0)
    (hint : (Dataset.scanHist env ds xVar cut w idw v extra).integralAll ≠ 0)
    (hsrc : ds.hasSource = true) :
    (ds.getHistogram env (some s) xVar cut w lumi true v iob idw extra fb).store
      = some (s.put (ds.queryKey xVar cut v extra)
          ((Dataset.scanHist env ds xVar cut w idw v extra).scale (1 / ds.sumOfWeights))) := by
  unfold Dataset.getHistogram
  simp only [Bool.not_true, Bool.and_false, Bool.false_eq_true, if_false]
  rw [if_pos hsrc, if_pos ⟨hsumw, hint, hdata⟩]
  rfl

/-- C2, witness for the amended theorem at `envC2`/`dsC2`. -/
theorem c2_amended_witness :
    (Dataset.getHistogram envC2 dsC2 (some []) varM none none 1 true none false false
        none false).store
      = some (HistogramStore.put [] (dsC2.queryKey varM none none none)
          ((Dataset.scanHist envC2 dsC2 varM none none false none none).scale
            (1 / dsC2.sumOfWeights))) :=
  c2_amended envC2 dsC2 [] varM none none 1 none false false none false rfl
    (by norm_num [dsC2])
    (by norm_num [Dataset.scanHist, Histogram.integralAll, envC2, hScanC2]) rfl

/-! ## C3 -/

/-- C3, confirmed: the evolution of the histogram store performed by
`getHistogram` is independent of the luminosity, the overflow-folding flag and
the binning-coercion flag (they are in neither the cache key nor the cached
value), and on a cache hit the returned histogram is exactly the
post-retrieval processing (`Dataset.postProcess`: binning coercion, overflow
folding, scale factors and luminosity) applied to the cached histogram. -/
theorem c3_cache_normalization (env : ScanEnv) (ds : Dataset)
    (store : Option HistogramStore) (xVar : Variable) (cut : Option Cut)
    (w : Option String) (l₁ l₂ : ℚ) (rec : Bool) (v : Option SystematicVariation)
    (iob₁ iob₂ idw : Bool) (extra : Option SystematicsSet) (fb₁ fb₂ : Bool)
    (s : HistogramStore) (c : Histogram) :
    ((ds.getHistogram env store xVar cut w l₁ rec v iob₁ idw extra fb₁).store
      = (ds.getHistogram env store xVar cut w l₂ rec v iob₂ idw extra fb₂).store)
    ∧ (store = some s → rec = false →
        s.get (ds.queryKey xVar cut v extra) = some c →
        (ds.getHistogram env store xVar cut w l₁ rec v iob₁ idw extra fb₁).hist
          = some (ds.postProcess env (ds.effectiveSSet extra)
              (ds.resolvedVariation extra v) cut xVar l₁ iob₁ fb₁ c)) := by
  constructor
  · simp only [Dataset.getHistogram]
    split
    · rfl
    · split <;> rfl
  · intro hstore hrec hget
    subst hstore
    subst hrec
    unfold Dataset.getHistogram
    simp [hget]

/-- C3, witness: a cache hit on `storeC3` returns the post-processed cached
histogram, for two different luminosities and overflow flags the same store. -/
theorem c3_witness :
    ((Dataset.getHistogram envC3 dsC3 (some storeC3) varM none none 7 false none true
        false none false).store
      = (Dataset.getHistogram envC3 dsC3 (some storeC3) varM none none 11 false none false
        false none true).store)
    ∧ (Dataset.getHistogram envC3 dsC3 (some storeC3) varM none none 7 false none true
        false none false).hist
      = some (dsC3.postProcess envC3 (dsC3.effectiveSSet none)
          (dsC3.resolvedVariation none none) none varM 7 true false hC3) := by
  refine ⟨(c3_cache_normalization envC3 dsC3 (some storeC3) varM none none 7 11 false none
    true false false none false true storeC3 hC3).1, ?_⟩
  exact (c3_cache_normalization envC3 dsC3 (some storeC3) varM none none 7 11 false none
    true false false none false true storeC3 hC3).2 rfl rfl (by decide)

/-! ## C4 -/

theorem Dataset.queryKey_demote (ds : Dataset) (xVar : Variable) (cut : Option Cut)
    (v : SystematicVariation) (extra : Option SystematicsSet)
    (hm : ∀ n, v.systName = some n → (ds.effectiveSSet extra).containsName n = false) :
    ds.queryKey xVar cut (some v) extra = ds.queryKey xVar cut none extra := by
  unfold Dataset.queryKey
  rw [Dataset.resolvedVariation_not_member ds extra v hm, Dataset.resolvedVariation_none]

theorem Dataset.scanHist_demote (env : ScanEnv) (ds : Dataset) (xVar : Variable)
    (cut : Option Cut) (w : Option String) (idw : Bool) (v : SystematicVariation)
    (extra : Option SystematicsSet)
    (hm : ∀ n, v.systName = some n → (ds.effectiveSSet extra).containsName n = false) :
    Dataset.scanHist env ds xVar cut w idw (some v) extra
      = Dataset.scanHist env ds xVar cut w idw none extra := by
  unfold Dataset.scanHist
  rw [Dataset.resolvedVariation_not_member ds extra v hm, Dataset.resolvedVariation_none]

/-- C4, amended: `getHistogram`, `getYield` and `getHistogram2D` demote a
variation whose owning systematic source is absent from the effective
systematics set to the nominal variation before the query proceeds (they
behave exactly as a nominal query); `getValues` performs no such demotion
(see the counterexample). -/
theorem c4_demotion (env : ScanEnv) (ds : Dataset) (store : Option HistogramStore)
    (xVar yVar : Variable) (cut : Option Cut) (w : Option String) (lumi : ℚ)
    (rec : Bool) (v : SystematicVariation) (iob idw : Bool)
    (extra : Option SystematicsSet) (fb iw isf : Bool)
    (hm : ∀ n, v.systName = some n → (ds.effectiveSSet extra).containsName n = false) :
    (ds.getHistogram env store xVar cut w lumi rec (some v) iob idw extra fb
      = ds.getHistogram env store xVar cut w lumi rec none iob idw extra fb)
    ∧ (ds.getYield env store cut w lumi iw (some v) idw isf extra rec
      = ds.getYield env store cut w lumi iw none idw isf extra rec)
    ∧ (ds.getHistogram2D env xVar yVar cut w lumi (some v) extra
      = ds.getHistogram2D env xVar yVar cut w lumi none extra) := by
  have hown : ∀ n, v.systName = some n → ds.systematicsSet.containsName n = false :=
    fun n hn => ds.containsName_own_false extra n (hm n hn)
  have h1 : ∀ (xv : Variable) (iobx fbx : Bool),
      ds.getHistogram env store xv cut w lumi rec (some v) iobx idw extra fbx
        = ds.getHistogram env store xv cut w lumi rec none iobx idw extra fbx := by
    intro xv iobx fbx
    unfold Dataset.getHistogram
    rw [Dataset.resolvedVariation_not_member ds extra v hm, Dataset.resolvedVariation_none,
      Dataset.queryKey_demote ds xv cut v extra hm,
      Dataset.scanHist_demote env ds xv cut w idw v extra hm]
  refine ⟨h1 xVar iob fb, ?_, ?_⟩
  · unfold Dataset.getYield
    rw [h1 var_Yield false false]
  · unfold Dataset.getHistogram2D
    rw [Dataset.resolvedVariationOwn_not_member ds v hown, Dataset.resolvedVariationOwn_none]

/-- C4, witness for the amended theorem: on `dsC4` (empty systematics set)
the shape variation `vUp` queries exactly like a nominal query. -/
theorem c4_demotion_witness :
    Dataset.getHistogram envC4 dsC4 none varM none none 1 false (some vUp) false false
        none false
      = Dataset.getHistogram envC4 dsC4 none varM none none 1 false none false false
        none false :=
  (c4_demotion envC4 dsC4 none varM varM none none 1 false vUp false false none false
    false false
    (fun n hn => by
      have hn2 : n = sysSrcName := by
        have : some sysSrcName = some n := hn
        exact (Option.some.injEq _ _ ▸ this).symm
      subst hn2
      rfl)).1

/-- C4, counterexample: `getValues` does not demote: on `dsC4`, whose
systematics set does not contain `vUp`'s source, a `getValues` query with
`vUp` reads the `SYST_UP` tree and returns different values than the demoted
(nominal) query the claim requires. -/
theorem c4_counterexample :
    (dsC4.effectiveSSet none).containsName sysSrcName = false
    ∧ Dataset.getValues envC4 dsC4 varM none none 1 (some vUp) none
      ≠ Dataset.getValues envC4 dsC4 varM none none 1 none none := by
  refine ⟨rfl, ?_⟩
  have hs : ("NOMINAL" : String) ≠ systUpTreeName := by decide
  have hL : Dataset.getValues envC4 dsC4 varM none none 1 (some vUp) none
      = some ([1], [1]) := by
    norm_num [Dataset.getValues, envC4, dsC4, vUp, Dataset.combinedScaleFactors,
      SystematicsSet.totalScaleFactor, Dataset.effectiveSSet]
  have hR : Dataset.getValues envC4 dsC4 varM none none 1 none none
      = some ([2], [1]) := by
    norm_num [Dataset.getValues, envC4, dsC4, Dataset.nominalSystematics, hs,
      Dataset.combinedScaleFactors, SystematicsSet.totalScaleFactor, Dataset.effectiveSSet]
  rw [hL, hR]
  norm_num

/-! ## C5 -/

/-- C5, amended: for a simulated dataset (nonzero sum of weights, openable
source, no histogram store), `getYield` with `ignoreWeights = false` returns
exactly the `IntegralAndError` of the single-bin proxy histogram produced by
the `getHistogram` pipeline, and that integral equals the raw scan yield
divided by the sum of weights times the combined scale factors times the
systematics scale factor times the luminosity.  (With `ignoreWeights = true`
the returned value is the raw entry count instead of the integral — see the
counterexample.) -/
theorem c5_amended (env : ScanEnv) (ds : Dataset) (cut : Option Cut) (w : Option String)
    (lumi : ℚ) (v : Option SystematicVariation) (idw isf : Bool)
    (extra : Option SystematicsSet) (rec : Bool)
    (hdata : ds.isData = false) (hsumw : ds.sumOfWeights ≠ 0) (hsrc : ds.hasSource = true) :
    ∃ h, (ds.getHistogram env none var_Yield cut w lumi rec v false idw extra false).hist
        = some h
      ∧ ds.getYield env none cut w lumi false v idw isf extra rec
          = (PyResult.ok (h.integralAll, h.errSqAll), none, 1)
      ∧ h.integralAll
          = (Dataset.scanHist env ds var_Yield cut w idw v extra).integralAll
              / ds.sumOfWeights
            * (ds.combinedScaleFactors
               * (ds.effectiveSSet extra).totalScaleFactor (ds.resolvedVariation extra v)
                 (some (ds.determineCut cut)) * lumi) := by
  have hr : ds.getHistogram env none var_Yield cut w lumi rec v false idw extra false
      = ⟨some (ds.postProcess env (ds.effectiveSSet extra) (ds.resolvedVariation extra v)
          cut var_Yield lumi false false
          (if ds.sumOfWeights ≠ 0
              ∧ (Dataset.scanHist env ds var_Yield cut w idw v extra).integralAll ≠ 0
              ∧ ds.isData = false then
            (Dataset.scanHist env ds var_Yield cut w idw v extra).scale (1 / ds.sumOfWeights)
          else Dataset.scanHist env ds var_Yield cut w idw v extra)), none, 1⟩ := by
    simp [Dataset.getHistogram, hsrc]
  refine ⟨_, by rw [hr], ?_, ?_⟩
  · unfold Dataset.getYield
    rw [hr]
    rfl
  · by_cases hint : (Dataset.scanHist env ds var_Yield cut w idw v extra).integralAll = 0
    · rw [if_neg (fun hc => hc.2.1 hint)]
      simp only [Dataset.postProcess, hdata, Bool.false_eq_true, if_false,
        Histogram.integralAll_scale]
      simp [hint]
    · rw [if_pos ⟨hsumw, hint, hdata⟩]
      simp only [Dataset.postProcess, hdata, Bool.false_eq_true, if_false,
        Histogram.integralAll_scale]
      field_simp
      ring

/-- C5, witness for the amended theorem at `envC5`/`dsC5`. -/
theorem c5_amended_witness :
    ∃ h, (dsC5.getHistogram envC5 none var_Yield none none 3 false none false false
        none false).hist = some h
      ∧ dsC5.getYield envC5 none none none 3 false none false false none false
          = (PyResult.ok (h.integralAll, h.errSqAll), none, 1)
      ∧ h.integralAll
          = (Dataset.scanHist envC5 dsC5 var_Yield none none false none none).integralAll
              / dsC5.sumOfWeights
            * (dsC5.combinedScaleFactors
               * (dsC5.effectiveSSet none).totalScaleFactor (dsC5.resolvedVariation none none)
                 (some (dsC5.determineCut none)) * 3) :=
  c5_amended envC5 dsC5 none none 3 none false false none false rfl
    (by norm_num [dsC5]) rfl

/-- C5, counterexample: with `ignoreWeights = true`, `getYield` returns the
raw entry count (3) of the proxy histogram, not its integral (6): the claim's
"for every arguments" bit-for-bit agreement of yield and histogram integral
fails for this argument combination. -/
theorem c5_counterexample :
    (Dataset.getYield envC5c dsC5c none none none 1 true none false false none false).1
        = PyResult.ok (3, 3)
    ∧ ((Dataset.getHistogram envC5c dsC5c none var_Yield none none 1 false none false false
        none false).hist.map Histogram.integralAll) = some 6
    ∧ (3 : ℚ) ≠ 6 := by
  refine ⟨?_, ?_, by norm_num⟩
  · norm_num [Dataset.getYield, Dataset.getHistogram, Dataset.scanHist, Dataset.postProcess,
      Dataset.combinedScaleFactors, SystematicsSet.totalScaleFactor, Dataset.effectiveSSet,
      Histogram.integralAll, Histogram.scale, envC5c, dsC5c, hScanC5c]
  · norm_num [Dataset.getHistogram, Dataset.scanHist, Dataset.postProcess,
      Dataset.combinedScaleFactors, SystematicsSet.totalScaleFactor, Dataset.effectiveSSet,
      Histogram.integralAll, Histogram.scale, envC5c, dsC5c, hScanC5c]

/-! ## C6 -/

/-- C6, confirmed: with a histogram store attached and `recreate = false`, a
second `getHistogram` call with identical arguments returns exactly the same
histogram as the first call and performs zero scan-engine invocations. -/
theorem c6_cache_idempotent (env : ScanEnv) (ds : Dataset) (s : HistogramStore)
    (xVar : Variable) (cut : Option Cut) (w : Option String) (lumi : ℚ)
    (v : Option SystematicVariation) (iob idw : Bool) (extra : Option SystematicsSet)
    (fb : Bool) :
    ((ds.getHistogram env
        (ds.getHistogram env (some s) xVar cut w lumi false v iob idw extra fb).store
        xVar cut w lumi false v iob idw extra fb).hist
      = (ds.getHistogram env (some s) xVar cut w lumi false v iob idw extra fb).hist)
    ∧ (ds.getHistogram env
        (ds.getHistogram env (some s) xVar cut w lumi false v iob idw extra fb).store
        xVar cut w lumi false v iob idw extra fb).scans = 0 := by
  cases hget : s.get (ds.queryKey xVar cut v extra) with
  | some c =>
    have h1 : (ds.getHistogram env (some s) xVar cut w lumi false v iob idw extra fb).store
        = some s := by
      simp [Dataset.getHistogram, hget]
    rw [h1]
    constructor
    · rfl
    · simp [Dataset.getHistogram, hget]
  | none =>
    cases hsrc : ds.hasSource with
    | false =>
      have h1 : (ds.getHistogram env (some s) xVar cut w lumi false v iob idw extra fb).store
          = some s := by
        simp [Dataset.getHistogram, hget, hsrc]
      rw [h1]
      constructor
      · rfl
      · simp [Dataset.getHistogram, hget, hsrc]
    | true =>
      have h1 : (ds.getHistogram env (some s) xVar cut w lumi false v iob idw extra fb)
          = ⟨some (ds.postProcess env (ds.effectiveSSet extra) (ds.resolvedVariation extra v)
              cut xVar lumi iob fb
              (if ds.sumOfWeights ≠ 0
                  ∧ (Dataset.scanHist env ds xVar cut w idw v extra).integralAll ≠ 0
                  ∧ ds.isData = false then
                (Dataset.scanHist env ds xVar cut w idw v extra).scale (1 / ds.sumOfWeights)
              else Dataset.scanHist env ds xVar cut w idw v extra)),
            some (s.put (ds.queryKey xVar cut v extra)
              (if ds.sumOfWeights ≠ 0
                  ∧ (Dataset.scanHist env ds xVar cut w idw v extra).integralAll ≠ 0
                  ∧ ds.isData = false then
                (Dataset.scanHist env ds xVar cut w idw v extra).scale (1 / ds.sumOfWeights)
              else Dataset.scanHist env ds xVar cut w idw v extra)), 1⟩ := by
        simp [Dataset.getHistogram, hget, hsrc]
      rw [h1]
      constructor
      · simp [Dataset.getHistogram, HistogramStore.get_put]
      · simp [Dataset.getHistogram, HistogramStore.get_put]

/-! ## C7 -/

theorem Dataset.postProcess_data_lumi (ds : Dataset) (env : ScanEnv) (sset : SystematicsSet)
    (v : SystematicVariation) (cut : Option Cut) (xVar : Variable) (l₁ l₂ : ℚ)
    (iob fb : Bool) (h : Histogram) (hdata : ds.isData = true) :
    ds.postProcess env sset v cut xVar l₁ iob fb h
      = ds.postProcess env sset v cut xVar l₂ iob fb h := by
  simp [Dataset.postProcess, hdata]

/-- C7, amended: for a real-data dataset, `getHistogram` is independent of the
luminosity argument (no luminosity scaling), and the yield is the raw scan
integral times the dataset's own combined scale factors times the systematics
scale factor — no luminosity factor and no division by the sum of weights.
The yield therefore equals the raw selected row count exactly when those scale
factors are 1 and the per-row weights are unit. -/
theorem c7_amended (env : ScanEnv) (ds : Dataset) (store : Option HistogramStore)
    (xVar : Variable) (cut : Option Cut) (w : Option String) (l₁ l₂ : ℚ) (rec : Bool)
    (v : Option SystematicVariation) (iob idw isf : Bool) (extra : Option SystematicsSet)
    (fb : Bool) (hdata : ds.isData = true) :
    ((ds.getHistogram env store xVar cut w l₁ rec v iob idw extra fb).hist
      = (ds.getHistogram env store xVar cut w l₂ rec v iob idw extra fb).hist)
    ∧ ((ds.determineVariable var_Yield).blindedBins = [] → ds.hasSource = true →
        ∃ e, ds.getYield env none cut w l₁ false v idw isf extra rec
          = (PyResult.ok
              ((Dataset.scanHist env ds var_Yield cut w idw v extra).integralAll
                * (ds.combinedScaleFactors
                   * (ds.effectiveSSet extra).totalScaleFactor (ds.resolvedVariation extra v)
                     (some (ds.determineCut cut))), e), none, 1)) := by
  constructor
  · simp only [Dataset.getHistogram]
    split
    · exact Option.map_congr fun a _ =>
        ds.postProcess_data_lumi env _ _ cut xVar l₁ l₂ iob fb a hdata
    · split
      · exact congrArg some (ds.postProcess_data_lumi env _ _ cut xVar l₁ l₂ iob fb _ hdata)
      · rfl
  · intro hb hsrc
    have hguard : ¬(ds.sumOfWeights ≠ 0
        ∧ (Dataset.scanHist env ds var_Yield cut w idw v extra).integralAll ≠ 0
        ∧ ds.isData = false) := fun hc => by simp [hdata] at hc
    have hr : ds.getHistogram env none var_Yield cut w l₁ rec v false idw extra false
        = ⟨some ((Dataset.scanHist env ds var_Yield cut w idw v extra).scale
            (ds.combinedScaleFactors
              * (ds.effectiveSSet extra).totalScaleFactor (ds.resolvedVariation extra v)
                (some (ds.determineCut cut)))), none, 1⟩ := by
      simp [Dataset.getHistogram, hsrc, hguard, Dataset.postProcess, hdata,
        Variable.applyBlinding_nil (ds.determineVariable var_Yield) hb]
    refine ⟨((Dataset.scanHist env ds var_Yield cut w idw v extra).scale
        (ds.combinedScaleFactors
          * (ds.effectiveSSet extra).totalScaleFactor (ds.resolvedVariation extra v)
            (some (ds.determineCut cut)))).errSqAll, ?_⟩
    unfold Dataset.getYield
    rw [hr]
    simp [Histogram.integralAll_scale, mul_comm]

/-- C7, witness for the amended theorem at `envC7`/`dsC7w` (a plain real-data
dataset). -/
theorem c7_amended_witness :
    ((dsC7w.getHistogram envC7 none varM none none 2500 false none false false none
        false).hist
      = (dsC7w.getHistogram envC7 none varM none none 1 false none false false none
        false).hist)
    ∧ ∃ e, dsC7w.getYield envC7 none none none 2500 false none false false none false
        = (PyResult.ok
            ((Dataset.scanHist envC7 dsC7w var_Yield none none false none none).integralAll
              * (dsC7w.combinedScaleFactors
                 * (dsC7w.effectiveSSet none).totalScaleFactor
                   (dsC7w.resolvedVariation none none)
                   (some (dsC7w.determineCut none))), e), none, 1) := by
  have h := c7_amended envC7 dsC7w none varM none none 2500 1 false none false false
    false none false rfl
  exact ⟨h.1, h.2 rfl rfl⟩

/-- C7, counterexample: a real-data dataset with a registered scale factor of
2 yields 10 from 5 raw selected rows — scale factors *are* applied to real
data, so the yield does not equal the raw selected row count.  (Luminosity
2500 is correctly not applied.) -/
theorem c7_counterexample :
    (Dataset.getYield envC7 dsC7 none none none 2500 false none false false none false).1
        = PyResult.ok (10, 20)
    ∧ (Dataset.scanHist envC7 dsC7 var_Yield none none false none none).entries = 5
    ∧ (10 : ℚ) ≠ 5 := by
  refine ⟨?_, by norm_num [Dataset.scanHist, envC7, hScanC7], by norm_num⟩
  norm_num [Dataset.getYield, Dataset.getHistogram, Dataset.scanHist, Dataset.postProcess,
    Dataset.combinedScaleFactors, SystematicsSet.totalScaleFactor, Dataset.effectiveSSet,
    Histogram.integralAll, Histogram.errSqAll, Histogram.scale, Variable.applyBlinding,
    zeroBinsAux, Dataset.determineVariable, determineVariableCore, var_Yield,
    envC7, dsC7, hScanC7]

/-! ## C8 -/

theorem procFoldCollect (env : ScanEnv) (xv : Variable) (cutR : Cut) (w : Option String)
    (lumi : ℚ) (rec : Bool) (v : Option SystematicVariation) (iob idw : Bool)
    (sset : SystematicsSet) (fb : Bool) :
    ∀ (l : List Dataset) (st : Option HistogramStore) (acc : Option Histogram) (n : Nat),
    l.foldl (procStep env xv cutR w lumi rec v iob idw sset fb) (acc, st, n)
      = (mergeInto acc (childHistograms env l st xv cutR w lumi rec v iob idw sset fb).1,
         (childHistograms env l st xv cutR w lumi rec v iob idw sset fb).2.1,
         n + (childHistograms env l st xv cutR w lumi rec v iob idw sset fb).2.2) := by
  intro l
  induction l with
  | nil =>
    intro st acc n
    cases acc <;> simp [childHistograms, mergeInto, sumHistograms]
  | cons ds rest ih =>
    intro st acc n
    simp only [List.foldl_cons, procStep, childHistograms]
    cases hh : (ds.getHistogram env st xv (some cutR) w lumi rec v iob idw (some sset)
        fb).hist with
    | none =>
      cases acc <;> simp [hh, ih, Nat.add_assoc, mergeInto]
    | some h =>
      cases acc with
      | none => simp [hh, ih, mergeInto, sumHistograms, Nat.add_assoc]
      | some hsum => simp [hh, ih, mergeInto, sumHistograms, Nat.add_assoc, List.foldl_cons]

/-- C8, confirmed: a `PhysicsProcess.getHistogram` query returns the bin-wise
(`TH1::Add`) sum of the histograms its children return — children returning
`None` are skipped and do not fail the query — scaled exactly once by the
process's own combined scale factors (the children's results carry no factor
of the process); the store and scan count are those of the children threaded
in order. -/
theorem c8_merge (env : ScanEnv) (p : PhysicsProcess) (store : Option HistogramStore)
    (xVar : Variable) (cut : Option Cut) (w : Option String) (lumi : ℚ) (rec : Bool)
    (v : Option SystematicVariation) (iob idw : Bool) (extra : Option SystematicsSet)
    (fb : Bool) :
    ((p.getHistogram env store xVar cut w lumi rec v iob idw extra fb).hist
      = Option.map (fun h => h.scale p.combinedScaleFactors)
          (sumHistograms (childHistograms env p.datasets store
            (determineVariableCore p.replaceVariables xVar)
            (determineCutCore p.ignoreCuts p.addCuts cut) w lumi rec v iob idw
            (p.effectiveSSet extra) fb).1))
    ∧ ((p.getHistogram env store xVar cut w lumi rec v iob idw extra fb).store
      = (childHistograms env p.datasets store
          (determineVariableCore p.replaceVariables xVar)
          (determineCutCore p.ignoreCuts p.addCuts cut) w lumi rec v iob idw
          (p.effectiveSSet extra) fb).2.1)
    ∧ ((p.getHistogram env store xVar cut w lumi rec v iob idw extra fb).scans
      = (childHistograms env p.datasets store
          (determineVariableCore p.replaceVariables xVar)
          (determineCutCore p.ignoreCuts p.addCuts cut) w lumi rec v iob idw
          (p.effectiveSSet extra) fb).2.2) := by
  simp only [PhysicsProcess.getHistogram]
  rw [procFoldCollect]
  simp [mergeInto]

/-! ## C9 -/

/-- C9: at a dataset whose backing source cannot be opened (`dsC9`),
`getHistogram` returns the null histogram as specified, but `getYield` then
dereferences the null histogram (`hist.IntegralAndError` on `None`) and
raises instead of returning an empty result. -/
theorem c9_bug :
    (Dataset.getHistogram envC9 dsC9 none varM none none 1 false none false false none
        false).hist = none
    ∧ (Dataset.getYield envC9 dsC9 none none none 1 false none false false none false).1
      = PyResult.raised attributeErrorMsg := by
  exact ⟨rfl, rfl⟩

/-! ## C10 -/

theorem PyHeap.read_write_self (h : PyHeap) (a : Nat) (v : Obj) :
    (h.write a v).read a = v := by
  simp [PyHeap.write, PyHeap.read, List.find?]

theorem PyHeap.read_write_other (h : PyHeap) (a b : Nat) (v : Obj) (hne : b ≠ a) :
    (h.write b v).read a = h.read a := by
  have hb : (b == a) = false := by simp [hne]
  simp [PyHeap.write, PyHeap.read, List.find?, hb]

theorem PyHeap.alloc_fst (h : PyHeap) (v : Obj) : (h.alloc v).1 = h.next := rfl

theorem PyHeap.alloc_next (h : PyHeap) (v : Obj) : (h.alloc v).2.next = h.next + 1 := rfl

theorem PyHeap.read_alloc_ne (h : PyHeap) (v : Obj) (a : Nat) (ha : h.next ≠ a) :
    (h.alloc v).2.read a = h.read a := by
  have hb : (h.next == a) = false := by simp [ha]
  simp [PyHeap.alloc, PyHeap.read, List.find?, hb]

theorem PyHeap.read_alloc_self (h : PyHeap) (v : Obj) : (h.alloc v).2.read h.next = v := by
  simp [PyHeap.alloc, PyHeap.read, List.find?]

/-- C10, counterexample: after `copy`, writing through the copy's
`scaleFactorsUncertainty` reference changes what the *original* reads there
(from `[]` to the written value): `scaleFactorsUncertainty` is shared, not
copied. -/
theorem c10_counterexample :
    (((dsObjC10.copy heapC10 nameCopy titleCopy).2).write
        ((dsObjC10.copy heapC10 nameCopy titleCopy).1).scaleFactorsUncertainty
        [(keyX, 1)]).read dsObjC10.scaleFactorsUncertainty = [(keyX, 1)]
    ∧ heapC10.read dsObjC10.scaleFactorsUncertainty = [] := by
  exact ⟨rfl, rfl⟩

/-- C10, amended: `copy` rebinds `openTrees`, `friendTrees`, `scaleFactors`,
`fileNames`, `ignoreCuts`, `addCuts` and `systematicsSet` to fresh references
(mutating them in the copy leaves the original's view unchanged), but shares
`scaleFactorsUncertainty`, `replaceVariables` and `treeEntryLists` with the
original, so a mutation through those references in the copy is visible when
reading through the original (in addition to the shared global name
registry). -/
theorem c10_amended (ds : DatasetObj) (heap : PyHeap) (name title : String)
    (h1 : ds.openTrees < heap.next) (h2 : ds.treeEntryLists < heap.next)
    (h3 : ds.scaleFactors < heap.next) (h4 : ds.scaleFactorsUncertainty < heap.next)
    (h5 : ds.fileNames < heap.next) (h6 : ds.friendTrees < heap.next)
    (h7 : ds.ignoreCuts < heap.next) (h8 : ds.addCuts < heap.next)
    (h9 : ds.replaceVariables < heap.next) (h10 : ds.systematicsSet < heap.next) :
    ((ds.copy heap name title).1.scaleFactorsUncertainty = ds.scaleFactorsUncertainty
      ∧ (ds.copy heap name title).1.replaceVariables = ds.replaceVariables
      ∧ (ds.copy heap name title).1.treeEntryLists = ds.treeEntryLists)
    ∧ ((ds.copy heap name title).1.openTrees ≠ ds.openTrees
      ∧ (ds.copy heap name title).1.friendTrees ≠ ds.friendTrees
      ∧ (ds.copy heap name title).1.scaleFactors ≠ ds.scaleFactors
      ∧ (ds.copy heap name title).1.fileNames ≠ ds.fileNames
      ∧ (ds.copy heap name title).1.ignoreCuts ≠ ds.ignoreCuts
      ∧ (ds.copy heap name title).1.addCuts ≠ ds.addCuts
      ∧ (ds.copy heap name title).1.systematicsSet ≠ ds.systematicsSet)
    ∧ (∀ v, ((ds.copy heap name title).2.write (ds.copy heap name title).1.scaleFactors
        v).read ds.scaleFactors = (ds.copy heap name title).2.read ds.scaleFactors)
    ∧ (∀ v, ((ds.copy heap name title).2.write (ds.copy heap name title).1.fileNames
        v).read ds.fileNames = (ds.copy heap name title).2.read ds.fileNames)
    ∧ (∀ v, ((ds.copy heap name title).2.write (ds.copy heap name title).1.ignoreCuts
        v).read ds.ignoreCuts = (ds.copy heap name title).2.read ds.ignoreCuts)
    ∧ (∀ v, ((ds.copy heap name title).2.write (ds.copy heap name title).1.addCuts
        v).read ds.addCuts = (ds.copy heap name title).2.read ds.addCuts)
    ∧ (∀ v, ((ds.copy heap name title).2.write
        (ds.copy heap name title).1.scaleFactorsUncertainty v).read
        ds.scaleFactorsUncertainty = v)
    ∧ (∀ v, ((ds.copy heap name title).2.write
        (ds.copy heap name title).1.replaceVariables v).read ds.replaceVariables = v)
    ∧ (∀ v, ((ds.copy heap name title).2.write
        (ds.copy heap name title).1.treeEntryLists v).read ds.treeEntryLists = v) := by
  refine ⟨⟨rfl, rfl, rfl⟩, ⟨?_, ?_, ?_, ?_, ?_, ?_, ?_⟩, ?_, ?_, ?_, ?_, ?_, ?_, ?_⟩
  · show heap.next ≠ ds.openTrees
    omega
  · show heap.next + 1 ≠ ds.friendTrees
    omega
  · show heap.next + 1 + 1 ≠ ds.scaleFactors
    omega
  · show heap.next + 1 + 1 + 1 ≠ ds.fileNames
    omega
  · show heap.next + 1 + 1 + 1 + 1 ≠ ds.ignoreCuts
    omega
  · show heap.next + 1 + 1 + 1 + 1 + 1 ≠ ds.addCuts
    omega
  · show heap.next + 1 + 1 + 1 + 1 + 1 + 1 ≠ ds.systematicsSet
    omega
  · exact fun v => PyHeap.read_write_other _ _ _ _ (show heap.next + 1 + 1 ≠ ds.scaleFactors by omega)
  · exact fun v => PyHeap.read_write_other _ _ _ _ (show heap.next + 1 + 1 + 1 ≠ ds.fileNames by omega)
  · exact fun v => PyHeap.read_write_other _ _ _ _ (show heap.next + 1 + 1 + 1 + 1 ≠ ds.ignoreCuts by omega)
  · exact fun v => PyHeap.read_write_other _ _ _ _ (show heap.next + 1 + 1 + 1 + 1 + 1 ≠ ds.addCuts by omega)
  · exact fun v => PyHeap.read_write_self ((ds.copy heap name title).2)
      ds.scaleFactorsUncertainty v
  · exact fun v => PyHeap.read_write_self ((ds.copy heap name title).2) ds.replaceVariables v
  · exact fun v => PyHeap.read_write_self ((ds.copy heap name title).2) ds.treeEntryLists v

/-- C10, witness for the amended theorem at the concrete object `dsObjC10w`
living on `heapC10`. -/
theorem c10_amended_witness :
    ((dsObjC10w.copy heapC10 nameCopy titleCopy).1.scaleFactorsUncertainty
        = dsObjC10w.scaleFactorsUncertainty
      ∧ (dsObjC10w.copy heapC10 nameCopy titleCopy).1.replaceVariables
        = dsObjC10w.replaceVariables
      ∧ (dsObjC10w.copy heapC10 nameCopy titleCopy).1.treeEntryLists
        = dsObjC10w.treeEntryLists)
    ∧ ((dsObjC10w.copy heapC10 nameCopy titleCopy).1.openTrees ≠ dsObjC10w.openTrees
      ∧ (dsObjC10w.copy heapC10 nameCopy titleCopy).1.friendTrees ≠ dsObjC10w.friendTrees
      ∧ (dsObjC10w.copy heapC10 nameCopy titleCopy).1.scaleFactors ≠ dsObjC10w.scaleFactors
      ∧ (dsObjC10w.copy heapC10 nameCopy titleCopy).1.fileNames ≠ dsObjC10w.fileNames
      ∧ (dsObjC10w.copy heapC10 nameCopy titleCopy).1.ignoreCuts ≠ dsObjC10w.ignoreCuts
      ∧ (dsObjC10w.copy heapC10 nameCopy titleCopy).1.addCuts ≠ dsObjC10w.addCuts
      ∧ (dsObjC10w.copy heapC10 nameCopy titleCopy).1.systematicsSet
        ≠ dsObjC10w.systematicsSet)
    ∧ (∀ v, ((dsObjC10w.copy heapC10 nameCopy titleCopy).2.write
        (dsObjC10w.copy heapC10 nameCopy titleCopy).1.scaleFactors v).read
        dsObjC10w.scaleFactors
      = (dsObjC10w.copy heapC10 nameCopy titleCopy).2.read dsObjC10w.scaleFactors)
    ∧ (∀ v, ((dsObjC10w.copy heapC10 nameCopy titleCopy).2.write
        (dsObjC10w.copy heapC10 nameCopy titleCopy).1.fileNames v).read dsObjC10w.fileNames
      = (dsObjC10w.copy heapC10 nameCopy titleCopy).2.read dsObjC10w.fileNames)
    ∧ (∀ v, ((dsObjC10w.copy heapC10 nameCopy titleCopy).2.write
        (dsObjC10w.copy heapC10 nameCopy titleCopy).1.ignoreCuts v).read dsObjC10w.ignoreCuts
      = (dsObjC10w.copy heapC10 nameCopy titleCopy).2.read dsObjC10w.ignoreCuts)
    ∧ (∀ v, ((dsObjC10w.copy heapC10 nameCopy titleCopy).2.write
        (dsObjC10w.copy heapC10 nameCopy titleCopy).1.addCuts v).read dsObjC10w.addCuts
      = (dsObjC10w.copy heapC10 nameCopy titleCopy).2.read dsObjC10w.addCuts)
    ∧ (∀ v, ((dsObjC10w.copy heapC10 nameCopy titleCopy).2.write
        (dsObjC10w.copy heapC10 nameCopy titleCopy).1.scaleFactorsUncertainty v).read
        dsObjC10w.scaleFactorsUncertainty = v)
    ∧ (∀ v, ((dsObjC10w.copy heapC10 nameCopy titleCopy).2.write
        (dsObjC10w.copy heapC10 nameCopy titleCopy).1.replaceVariables v).read
        dsObjC10w.replaceVariables = v)
    ∧ (∀ v, ((dsObjC10w.copy heapC10 nameCopy titleCopy).2.write
        (dsObjC10w.copy heapC10 nameCopy titleCopy).1.treeEntryLists v).read
        dsObjC10w.treeEntryLists = v) :=
  c10_amended dsObjC10w heapC10 nameCopy titleCopy (by decide) (by decide) (by decide)
    (by decide) (by decide) (by decide) (by decide) (by decide) (by decide) (by decide)
